import Mathlib

/-!
Shallow embedding of the descarteslabs-python client core:
`descarteslabs/services/service.py` (WrappedSession, Service) and
`descarteslabs/services/places.py` (Places and its cachetools-based
response cache), together with theorems about the claims of the
natural-language specification.
-/

/-- The error classes from `descarteslabs.exceptions` that
`WrappedSession.request` raises on terminal responses. -/
inductive ErrKind where
  | badRequest
  | notFound
  | rateLimited
  | gatewayTimeout
  | serverError
  deriving DecidableEq, Repr

/-- Outcome of `WrappedSession.request` on a terminal HTTP response:
either the response body is returned (status 200) or an error of some
kind, carrying a message string, is raised. -/
inductive ReqResult where
  | ok (body : String)
  | raised (kind : ErrKind) (msg : String)
  deriving DecidableEq, Repr

/-- The fixed message passed to `GatewayTimeoutError` in
`WrappedSession.request` (the two adjacent string literals of the source
concatenate). -/
def gatewayTimeoutMsg : String :=
  "Your request timed out on the server. Consider reducing the complexity of your request."

/-- `WrappedSession.request` terminal-response handling (service.py):
status 200 returns the response; 400, 404, 429 and 504 raise
`BadRequestError(resp.text)`, `NotFoundError("404 %s %s" % (method, url))`,
`RateLimitError(resp.text)` and `GatewayTimeoutError(<fixed message>)`
respectively; every other status raises `ServerError(resp.text)`. -/
def wrappedRequest (method url : String) (status : Nat) (body : String) : ReqResult :=
  if status = 200 then .ok body
  else if status = 400 then .raised .badRequest body
  else if status = 404 then .raised .notFound ("404 " ++ method ++ " " ++ url)
  else if status = 429 then .raised .rateLimited body
  else if status = 504 then .raised .gatewayTimeout gatewayTimeoutMsg
  else .raised .serverError body

/-- The kind of error a request outcome raised, if any. -/
def errKindOf : ReqResult → Option ErrKind
  | .ok _ => none
  | .raised k _ => some k

/-- The message of the error a request outcome raised, if any. -/
def errMsgOf : ReqResult → Option String
  | .ok _ => none
  | .raised _ m => some m

/-- A Session object as cached by `Service.session`: `id` is the object
identity (fresh per construction), `token` the auth-token snapshot that
`build_session` injects into the Authorization header. -/
structure SessionObj where
  id : Nat
  token : String
  deriving DecidableEq, Repr

/-- State of one `Service` instance together with the shared auth token it
observes (`self.auth.token`, modelled by the `token` field; mutating the
shared token is modelled by updating that field). `nextId` is the
allocator for fresh session object identities. -/
structure ServiceSt where
  token : String
  base_url : String
  current_session : Option SessionObj
  session_token : Option String
  nextId : Nat
  deriving DecidableEq, Repr

/-- `Service.__init__(url, token)`: stores the base url and starts with no
session and no remembered session token. -/
def serviceInit (url tok : String) : ServiceSt :=
  { token := tok, base_url := url, current_session := none,
    session_token := none, nextId := 0 }

/-- The `Service.session` property (service.py):
if `session_token != token` drop the session; if no session exists, build
a fresh one and remember the token used. Returns the session together
with the updated instance state. -/
def sessionGet (st : ServiceSt) : SessionObj × ServiceSt :=
  let st1 := if st.session_token ≠ some st.token then
    { st with current_session := none } else st
  match st1.current_session with
  | some s => (s, st1)
  | none =>
    let s : SessionObj := { id := st1.nextId, token := st1.token }
    (s, { st1 with
            current_session := some s
            session_token := some st1.token
            nextId := st1.nextId + 1 })

/-- Well-formedness of a Service state: any cached session object was
allocated by this instance, so its identity is below the allocator. Holds
for `serviceInit` and is preserved by `sessionGet` and by token mutation. -/
def SessionFresh (st : ServiceSt) : Prop :=
  match st.current_session with
  | none => True
  | some s => s.id < st.nextId

theorem sessionFresh_init (url tok : String) : SessionFresh (serviceInit url tok) := by
  simp [SessionFresh, serviceInit]

/-- Behaviour of one `session` access: the state afterwards caches the
returned session, remembers the current token, leaves the token and base
url alone, and the returned session's identity is below the new allocator
value; well-formedness is preserved. -/
theorem sessionGet_spec (st : ServiceSt) (h : SessionFresh st) :
    (sessionGet st).2.current_session = some (sessionGet st).1 ∧
    (sessionGet st).2.session_token = some st.token ∧
    (sessionGet st).2.token = st.token ∧
    (sessionGet st).2.base_url = st.base_url ∧
    (sessionGet st).1.id < (sessionGet st).2.nextId ∧
    SessionFresh (sessionGet st).2 := by
  unfold sessionGet
  by_cases hc : st.session_token ≠ some st.token
  · simp only [if_pos hc]
    simp [SessionFresh]
  · simp only [if_neg hc]
    push_neg at hc
    cases hs : st.current_session with
    | none => simp [hs, hc, SessionFresh]
    | some s =>
      simp only [hs]
      unfold SessionFresh at h
      rw [hs] at h
      have h2 : s.id < st.nextId := h
      simp [hc, SessionFresh, hs, h2]

/-- `sessionGet` allocates a fresh session exactly when no session exists
or the remembered token differs from the current token. -/
theorem sessionGet_rebuild_iff (st : ServiceSt) :
    (sessionGet st).2.nextId = st.nextId + 1 ↔
      (st.current_session = none ∨ st.session_token ≠ some st.token) := by
  unfold sessionGet
  by_cases hc : st.session_token ≠ some st.token
  · simp [if_pos hc, hc]
  · simp only [if_neg hc]
    push_neg at hc
    cases hs : st.current_session with
    | none => simp [hs]
    | some s => simp [hs, hc]

theorem sessionGet_reuse (st : ServiceSt) (s : SessionObj)
    (hs : st.current_session = some s) (ht : st.session_token = some st.token) :
    sessionGet st = (s, st) := by
  unfold sessionGet
  simp [ht, hs]

theorem sessionGet_rebuild (st : ServiceSt) (hc : st.session_token ≠ some st.token) :
    sessionGet st =
      (⟨st.nextId, st.token⟩,
        { st with
            current_session := some ⟨st.nextId, st.token⟩
            session_token := some st.token
            nextId := st.nextId + 1 }) := by
  unfold sessionGet
  simp [hc]

/-- Claim C1: accessing `session` twice with the shared auth token mutated
to a different value in between yields two distinct Session instances, a
third access without further mutation returns the same instance as the
second, and in general a session is rebuilt exactly when no session
exists or the previously observed token differs from the current token. -/
theorem session_rebuilt_on_token_change (st : ServiceSt) (t2 : String)
    (hwf : SessionFresh st) (hne : t2 ≠ st.token) :
    ((sessionGet st).1 ≠ (sessionGet { (sessionGet st).2 with token := t2 }).1) ∧
    (sessionGet (sessionGet { (sessionGet st).2 with token := t2 }).2).1 =
      (sessionGet { (sessionGet st).2 with token := t2 }).1 ∧
    (sessionGet (sessionGet { (sessionGet st).2 with token := t2 }).2).2 =
      (sessionGet { (sessionGet st).2 with token := t2 }).2 ∧
    (∀ st' : ServiceSt, ((sessionGet st').2.nextId = st'.nextId + 1 ↔
      (st'.current_session = none ∨ st'.session_token ≠ some st'.token))) := by
  obtain ⟨h1, h2, h3, h4, h5, h6⟩ := sessionGet_spec st hwf
  have hcM : ({ (sessionGet st).2 with token := t2 } : ServiceSt).session_token ≠
      some ({ (sessionGet st).2 with token := t2 } : ServiceSt).token := by
    simp only [h2]
    intro h
    exact hne (Option.some_injective _ h).symm
  have hreb := sessionGet_rebuild _ hcM
  refine ⟨?_, ?_, ?_, fun st' => sessionGet_rebuild_iff st'⟩
  · rw [hreb]
    intro heq
    have hid : (sessionGet st).1.id =
        ({ (sessionGet st).2 with token := t2 } : ServiceSt).nextId :=
      congrArg SessionObj.id heq
    simp only [] at hid
    omega
  · rw [hreb]
    exact congrArg Prod.fst (sessionGet_reuse _ _ rfl rfl)
  · rw [hreb]
    exact congrArg Prod.snd (sessionGet_reuse _ _ rfl rfl)

theorem session_rebuilt_on_token_change_witness :
    SessionFresh (serviceInit "https://svc" "tok0") ∧
    "tok1" ≠ (serviceInit "https://svc" "tok0").token ∧
    (sessionGet (serviceInit "https://svc" "tok0")).1 ≠
      (sessionGet { (sessionGet (serviceInit "https://svc" "tok0")).2 with
                      token := "tok1" }).1 :=
  ⟨sessionFresh_init _ _, by decide,
    (session_rebuilt_on_token_change (serviceInit "https://svc" "tok0") "tok1"
      (sessionFresh_init _ _) (by decide)).1⟩

/-- Claim C2: the request operation classifies a terminal response purely
by status code: 400 raises BadRequest, 404 NotFound, 429 RateLimited,
504 GatewayTimeout, any other non-2xx status ServerError, and status 200
returns the body with no error; the kind never depends on the body. -/
theorem request_status_error_mapping :
    (∀ m u b, errKindOf (wrappedRequest m u 400 b) = some .badRequest) ∧
    (∀ m u b, errKindOf (wrappedRequest m u 404 b) = some .notFound) ∧
    (∀ m u b, errKindOf (wrappedRequest m u 429 b) = some .rateLimited) ∧
    (∀ m u b, errKindOf (wrappedRequest m u 504 b) = some .gatewayTimeout) ∧
    (∀ m u b (s : Nat), ¬(200 ≤ s ∧ s < 300) → s ≠ 400 → s ≠ 404 → s ≠ 429 →
      s ≠ 504 → errKindOf (wrappedRequest m u s b) = some .serverError) ∧
    (∀ m u b, wrappedRequest m u 200 b = .ok b) ∧
    (∀ m m2 u u2 b b2 (s : Nat),
      errKindOf (wrappedRequest m u s b) = errKindOf (wrappedRequest m2 u2 s b2)) := by
  refine ⟨fun m u b => rfl, fun m u b => rfl, fun m u b => rfl, fun m u b => rfl,
    ?_, fun m u b => rfl, ?_⟩
  · intro m u b s hnot h400 h404 h429 h504
    have h200 : s ≠ 200 := by
      intro h
      exact hnot ⟨by omega, by omega⟩
    simp [wrappedRequest, errKindOf, h200, h400, h404, h429, h504]
  · intro m m2 u u2 b b2 s
    unfold wrappedRequest
    split_ifs <;> rfl

theorem request_status_error_mapping_witness :
    ¬((200 : Nat) ≤ 500 ∧ (500 : Nat) < 300) ∧ (500 : Nat) ≠ 400 ∧
    (500 : Nat) ≠ 404 ∧ (500 : Nat) ≠ 429 ∧ (500 : Nat) ≠ 504 ∧
    errKindOf (wrappedRequest "GET" "/places" 500 "boom") = some .serverError :=
  ⟨by decide, by decide, by decide, by decide, by decide,
    request_status_error_mapping.2.2.2.2.1 "GET" "/places" "boom" 500
      (by decide) (by decide) (by decide) (by decide) (by decide)⟩

/-- Claim C3 counterexample: on a 404 the raised error's message is built
from the method and url, not the response body; on a 504 it is a fixed
advisory string, not the body. So not every non-2xx error carries the raw
body text. -/
theorem notFound_message_is_not_body :
    errMsgOf (wrappedRequest "GET" "/places" 404 "oops") = some "404 GET /places" ∧
    errMsgOf (wrappedRequest "GET" "/places" 404 "oops") ≠ some "oops" ∧
    errMsgOf (wrappedRequest "GET" "/places" 504 "oops") ≠ some "oops" := by
  refine ⟨rfl, by decide, by decide⟩

/-- Claim C3 (amended): BadRequest (400), RateLimited (429) and ServerError
(other non-2xx) errors carry the raw response body text; NotFound (404)
instead carries "404 method url" and GatewayTimeout (504) carries a fixed
advisory message. -/
theorem error_messages_by_kind :
    (∀ m u b, wrappedRequest m u 400 b = .raised .badRequest b) ∧
    (∀ m u b, wrappedRequest m u 429 b = .raised .rateLimited b) ∧
    (∀ m u b, wrappedRequest m u 404 b =
      .raised .notFound ("404 " ++ m ++ " " ++ u)) ∧
    (∀ m u b, wrappedRequest m u 504 b = .raised .gatewayTimeout gatewayTimeoutMsg) ∧
    (∀ m u b (s : Nat), ¬(200 ≤ s ∧ s < 300) → s ≠ 400 → s ≠ 404 → s ≠ 429 →
      s ≠ 504 → wrappedRequest m u s b = .raised .serverError b) := by
  refine ⟨fun m u b => rfl, fun m u b => rfl, fun m u b => rfl, fun m u b => rfl, ?_⟩
  intro m u b s hnot h400 h404 h429 h504
  have h200 : s ≠ 200 := by
    intro h
    exact hnot ⟨by omega, by omega⟩
  simp [wrappedRequest, h200, h400, h404, h429, h504]

theorem error_messages_by_kind_witness :
    ¬((200 : Nat) ≤ 500 ∧ (500 : Nat) < 300) ∧ (500 : Nat) ≠ 400 ∧
    (500 : Nat) ≠ 404 ∧ (500 : Nat) ≠ 429 ∧ (500 : Nat) ≠ 504 ∧
    wrappedRequest "GET" "/places" 500 "boom" = .raised .serverError "boom" :=
  ⟨by decide, by decide, by decide, by decide, by decide,
    error_messages_by_kind.2.2.2.2 "GET" "/places" "boom" 500
      (by decide) (by decide) (by decide) (by decide) (by decide)⟩

/-- Claim C9: success is recognised only for status exactly 200; every
other 2xx status (201, 204, ...) falls through the status ladder to the
final branch and raises ServerError with the body as message. -/
theorem non200_2xx_raises_server_error (m u b : String) (s : Nat)
    (h2xx : 200 ≤ s ∧ s < 300) (hne : s ≠ 200) :
    wrappedRequest m u s b = .raised .serverError b := by
  have h400 : s ≠ 400 := by omega
  have h404 : s ≠ 404 := by omega
  have h429 : s ≠ 429 := by omega
  have h504 : s ≠ 504 := by omega
  simp [wrappedRequest, hne, h400, h404, h429, h504]

theorem non200_2xx_raises_server_error_witness :
    ((200 : Nat) ≤ 201 ∧ (201 : Nat) < 300) ∧ (201 : Nat) ≠ 200 ∧
    wrappedRequest "POST" "/places" 201 "created" = .raised .serverError "created" :=
  ⟨by decide, by decide,
    non200_2xx_raises_server_error "POST" "/places" "created" 201
      (by decide) (by decide)⟩

/-- Whether TLS verification is enabled on a built session and against
which trust anchor: the bundled crt file, or disabled. -/
inductive VerifySetting where
  | file (path : String)
  | disabled
  deriving DecidableEq, Repr

/-- The urllib3 `Retry` object constructed in `Service.build_session`. -/
structure RetryConfig where
  total : Nat
  read : Nat
  backoff_factor : ℚ
  method_whitelist : List String
  status_forcelist : List Nat
  deriving DecidableEq, Repr

/-- A `WrappedSession` as configured by `Service.build_session`: base url,
timeout pair, mounted (prefix, retry) adapters, injected headers and the
TLS verify setting. -/
structure BuiltSession where
  base_url : String
  timeout : ℚ × ℚ
  mounts : List (String × RetryConfig)
  headers : List (String × String)
  verify : VerifySetting
  deriving DecidableEq, Repr

/-- `random.uniform a b`: `a + (b - a) * u` for a unit sample
`u ∈ [0, 1)` drawn from the generator. -/
def uniform (a b u : ℚ) : ℚ := a + (b - a) * u

/-- `Service.build_session` (service.py): constructs a WrappedSession,
mounts an HTTPAdapter with `Retry(total=5, read=2,
backoff_factor=random.uniform(1, 3), method_whitelist=frozenset([HEAD,
TRACE, GET, POST, PUT, OPTIONS, DELETE]), status_forcelist=[429, 500,
502, 503])` on the "https://" prefix, injects the Authorization,
Content-Type and User-Agent headers, and tries to enable TLS
verification against the bundled `gd_bundle-g2-g1.crt`, disabling
verification when opening that file fails (the bare `except`). `u` is
the RNG unit sample behind `random.uniform(1, 3)`;
`trustAnchorReadable` is whether `open()` on the bundle succeeds. -/
def build_session (base tok ver : String) (tmo : ℚ × ℚ)
    (u : ℚ) (trustAnchorReadable : Bool) : BuiltSession :=
  { base_url := base
    timeout := tmo
    mounts := [("https://",
      { total := 5
        read := 2
        backoff_factor := uniform 1 3 u
        method_whitelist := ["HEAD", "TRACE", "GET", "POST", "PUT", "OPTIONS", "DELETE"]
        status_forcelist := [429, 500, 502, 503] })]
    headers := [("Authorization", tok), ("Content-Type", "application/json"),
                ("User-Agent", "dl-python/" ++ ver)]
    verify := if trustAnchorReadable then .file "gd_bundle-g2-g1.crt" else .disabled }

/-- The urllib3 `Retry.get_backoff_time` schedule between attempt `n` and
`n + 1`: `backoff_factor * 2 ^ (n - 1)`. -/
def backoffTime (r : RetryConfig) (n : Nat) : ℚ := r.backoff_factor * 2 ^ (n - 1)

/-- Claim C6: every Session is built with retryable methods {HEAD, TRACE,
GET, POST, PUT, OPTIONS, DELETE} and retryable statuses {429, 500, 502,
503}; its backoff base is drawn once at construction from [1, 3) via
`random.uniform(1, 3)` and every later attempt's backoff uses that same
construction-time base (the session value is immutable, so the base is
never re-randomized). -/
theorem session_retry_policy (base tok ver : String) (tmo : ℚ × ℚ) (u : ℚ)
    (ta : Bool) (hu0 : 0 ≤ u) (hu1 : u < 1) :
    ∃ r : RetryConfig,
      (build_session base tok ver tmo u ta).mounts = [("https://", r)] ∧
      r.method_whitelist = ["HEAD", "TRACE", "GET", "POST", "PUT", "OPTIONS", "DELETE"] ∧
      r.status_forcelist = [429, 500, 502, 503] ∧
      r.total = 5 ∧ r.read = 2 ∧
      r.backoff_factor = uniform 1 3 u ∧
      1 ≤ r.backoff_factor ∧ r.backoff_factor < 3 ∧
      (∀ n : Nat, backoffTime r n = uniform 1 3 u * 2 ^ (n - 1)) := by
  refine ⟨_, rfl, rfl, rfl, rfl, rfl, rfl, ?_, ?_, fun n => rfl⟩
  · show (1 : ℚ) ≤ uniform 1 3 u
    unfold uniform
    linarith
  · show uniform 1 3 u < 3
    unfold uniform
    linarith

theorem session_retry_policy_witness :
    (0 : ℚ) ≤ 1/2 ∧ (1/2 : ℚ) < 1 ∧
    ∃ r : RetryConfig,
      (build_session "https://svc" "tok" "0.2.4" (19/2, 30) (1/2) true).mounts =
        [("https://", r)] ∧ 1 ≤ r.backoff_factor ∧ r.backoff_factor < 3 :=
  ⟨by norm_num, by norm_num, by
    obtain ⟨r, hm, _, _, _, _, _, hlo, hhi, _⟩ :=
      session_retry_policy "https://svc" "tok" "0.2.4" (19/2, 30) (1/2) true
        (by norm_num) (by norm_num)
    exact ⟨r, hm, hlo, hhi⟩⟩

/-- Claim C7: if the bundled trust-anchor file is readable the session
verifies TLS against it, otherwise verification is disabled (fail-open);
construction is total, so it never fails on a missing or unreadable
trust-anchor file. -/
theorem build_session_tls_fail_open (base tok ver : String) (tmo : ℚ × ℚ) (u : ℚ) :
    (build_session base tok ver tmo u true).verify = .file "gd_bundle-g2-g1.crt" ∧
    (build_session base tok ver tmo u false).verify = .disabled ∧
    (∀ ta : Bool, ∃ s : BuiltSession, build_session base tok ver tmo u ta = s) :=
  ⟨rfl, rfl, fun _ => ⟨_, rfl⟩⟩

/-- An element of a cachetools hash key: a (string-modelled) hashable
value, Python's None, or the keyword marker tuple `_kwmark`. -/
inductive HElem where
  | v (s : String)
  | noneV
  | kwmark
  deriving DecidableEq, Repr

/-- Python tuple comparison on `(key, value)` dict items as used by
`sorted(kwargs.items())`: lexicographic on the key, then the value. -/
def kwLe (p q : String × String) : Prop :=
  p.1 < q.1 ∨ (p.1 = q.1 ∧ p.2 ≤ q.2)

instance : DecidableRel kwLe := fun p q => by
  unfold kwLe
  infer_instance

instance : IsTrans (String × String) kwLe where
  trans a b c hab hbc := by
    rcases hab with h1 | ⟨h1, h2⟩
    · rcases hbc with g1 | ⟨g1, g2⟩
      · exact Or.inl (lt_trans h1 g1)
      · exact Or.inl (g1 ▸ h1)
    · rcases hbc with g1 | ⟨g1, g2⟩
      · exact Or.inl (h1 ▸ g1)
      · exact Or.inr ⟨h1.trans g1, le_trans h2 g2⟩

instance : IsAntisymm (String × String) kwLe where
  antisymm a b hab hba := by
    obtain ⟨a1, a2⟩ := a
    obtain ⟨b1, b2⟩ := b
    rcases hab with h1 | ⟨h1, h2⟩ <;> rcases hba with g1 | ⟨g1, g2⟩ <;>
      simp only [] at h1 g1
    · exact absurd (lt_trans h1 g1) (lt_irrefl _)
    · exact absurd h1 (g1 ▸ lt_irrefl _)
    · exact absurd g1 (h1 ▸ lt_irrefl _)
    · subst h1
      simp only [] at h2 g2
      rw [le_antisymm h2 g2]

instance : IsTotal (String × String) kwLe where
  total a b := by
    rcases lt_trichotomy a.1 b.1 with h | h | h
    · exact Or.inl (Or.inl h)
    · rcases le_total a.2 b.2 with h2 | h2
      · exact Or.inl (Or.inr ⟨h, h2⟩)
      · exact Or.inr (Or.inr ⟨h.symm, h2⟩)
    · exact Or.inr (Or.inl h)

/-- `cachetools.keys.hashkey(*args, **kwargs)`, the key function
underlying the `cachedmethod` decorators of places.py: when kwargs are
present the key is the positional args followed by the `_kwmark`
sentinel and the kwargs items flattened in sorted order
(`args + sum(sorted(kwargs.items()), kwmark)`); otherwise it is just the
args. (Sorting by a total order makes the result the unique sorted
permutation, as Python's `sorted` produces.) -/
def hashkey (args : List HElem) (kwargs : List (String × String)) : List HElem :=
  if kwargs.isEmpty then args
  else args ++ [HElem.kwmark] ++
    (List.insertionSort kwLe kwargs).flatMap (fun p => [HElem.v p.1, HElem.v p.2])

/-- One stored cache entry: key, cached JSON value (modelled as the raw
body string) and absolute expiry time. -/
structure CacheEntry where
  key : List HElem
  val : String
  expire : Nat
  deriving DecidableEq, Repr

/-- `cachetools.TTLCache` state: the entries in least-recently-used-first
order (the order of the `__links` OrderedDict), with fixed `maxsize` and
`ttl` from `Places.__init__`. -/
structure TTLCacheSt where
  maxsize : Nat
  ttl : Nat
  entries : List CacheEntry
  deriving DecidableEq, Repr

/-- Move the entry with key `k` to the most-recently-used end. -/
def moveToEnd (es : List CacheEntry) (k : List HElem) : List CacheEntry :=
  es.filter (fun e => decide (e.key ≠ k)) ++ es.filter (fun e => decide (e.key = k))

/-- `TTLCache.__getitem__` as seen by the cachedmethod wrapper: a hit iff
the key is present with `¬(entry.expire < now)`; an access moves the
link to the most-recently-used end; an expired or absent key is a miss
(KeyError). -/
def cacheLookup (c : TTLCacheSt) (k : List HElem) (now : Nat) :
    Option String × TTLCacheSt :=
  match c.entries.find? (fun e => decide (e.key = k)) with
  | none => (none, c)
  | some e =>
    let c1 := { c with entries := moveToEnd c.entries k }
    if e.expire < now then (none, c1) else (some e.val, c1)

/-- `TTLCache.expire`: drop every entry whose expiry time has passed. -/
def expirePurge (c : TTLCacheSt) (now : Nat) : TTLCacheSt :=
  { c with entries := c.entries.filter (fun e => decide (now ≤ e.expire)) }

/-- `TTLCache.__setitem__`: purge expired entries, then insert the value
under `k` at the most-recently-used end with expiry `now + ttl`,
evicting least-recently-used entries first when a new key would push the
size past `maxsize`. -/
def cacheSet (c : TTLCacheSt) (k : List HElem) (v : String) (now : Nat) :
    TTLCacheSt :=
  let c1 := expirePurge c now
  let rest := c1.entries.filter (fun e => decide (e.key ≠ k))
  let kept := if c1.maxsize ≤ rest.length then
    rest.drop (rest.length + 1 - c1.maxsize) else rest
  { c1 with entries := kept ++ [{ key := k, val := v, expire := now + c1.ttl }] }

/-- Python exceptions that the embedded Places method bodies can raise. -/
inductive PyErr where
  | attributeError (name : String)
  deriving DecidableEq, Repr

/-- A query-parameter value: a plain string or a list of strings. -/
inductive PVal where
  | s (v : String)
  | l (v : List String)
  deriving DecidableEq, Repr

/-- The underlying HTTP transport (session.get on a full URL with query
parameters), abstracted as the JSON body it returns. -/
abbrev Transport := String → List (String × PVal) → String

/-- Outcome of the cachedmethod wrapper around one cached operation:
the returned value or raised error, the cache afterwards, how many times
the wrapped method ran, and how many HTTP requests were issued. -/
structure CacheCallOut where
  ret : Except PyErr String
  cache : TTLCacheSt
  methodCalls : Nat
  httpCalls : Nat
  deriving Repr

/-- The `cachetools.cachedmethod` wrapper: look the key up in the cache
and return a live hit without running the method; on a miss run the
method once and store the result only when it returns normally (a raised
error propagates and caches nothing). -/
def cachedCall (c : TTLCacheSt) (k : List HElem) (now : Nat)
    (method : Except PyErr String × Nat) : CacheCallOut :=
  match cacheLookup c k now with
  | (some v, c1) => { ret := .ok v, cache := c1, methodCalls := 0, httpCalls := 0 }
  | (none, c1) =>
    match method with
    | (.ok v, n) =>
      { ret := .ok v, cache := cacheSet c1 k v now, methodCalls := 1, httpCalls := n }
    | (.error e, n) =>
      { ret := .error e, cache := c1, methodCalls := 1, httpCalls := n }

theorem insertionSort_eq_of_perm (l1 l2 : List (String × String))
    (h : l1.Perm l2) :
    List.insertionSort kwLe l1 = List.insertionSort kwLe l2 :=
  List.eq_of_perm_of_sorted
    ((List.perm_insertionSort kwLe l1).trans
      (h.trans (List.perm_insertionSort kwLe l2).symm))
    (List.sorted_insertionSort kwLe l1) (List.sorted_insertionSort kwLe l2)

/-- Claim C5: the cache-key fingerprint is invariant under
keyword-argument ordering: for any operation name, positional arguments
and keyword mapping, presenting the same kwargs in different orders
yields identical hash keys, hence identical cache lookups. -/
theorem hashkey_kwarg_order_invariant (op : String) (args : List HElem)
    (kw1 kw2 : List (String × String)) (hperm : kw1.Perm kw2) :
    hashkey (HElem.v op :: args) kw1 = hashkey (HElem.v op :: args) kw2 ∧
    ∀ (c : TTLCacheSt) (now : Nat),
      cacheLookup c (hashkey (HElem.v op :: args) kw1) now =
        cacheLookup c (hashkey (HElem.v op :: args) kw2) now := by
  have hemp : kw1.isEmpty = kw2.isEmpty := by
    have hl := hperm.length_eq
    cases kw1 <;> cases kw2 <;> simp_all
  have hk : hashkey (HElem.v op :: args) kw1 = hashkey (HElem.v op :: args) kw2 := by
    unfold hashkey
    rw [insertionSort_eq_of_perm kw1 kw2 hperm, hemp]
  exact ⟨hk, fun c now => by rw [hk]⟩

theorem hashkey_kwarg_order_invariant_witness :
    ([("placetype", "country"), ("geom", "low")] : List (String × String)).Perm
      [("geom", "low"), ("placetype", "country")] ∧
    hashkey [HElem.v "find", HElem.v "morocco"]
        [("placetype", "country"), ("geom", "low")] =
      hashkey [HElem.v "find", HElem.v "morocco"]
        [("geom", "low"), ("placetype", "country")] :=
  ⟨by decide,
    (hashkey_kwarg_order_invariant "find" [HElem.v "morocco"]
      [("placetype", "country"), ("geom", "low")]
      [("geom", "low"), ("placetype", "country")] (by decide)).1⟩

/-- The instance attribute names `Service.__init__` assigns (service.py):
`auth`, `base_url` — not `url` — `current_session`, `session_token`. -/
def serviceInitAttrs : List String :=
  ["auth", "base_url", "current_session", "session_token"]

/-- The instance attribute names a Places instance carries after
`Places.__init__` (the Service attributes plus `cache`). -/
def placesInitAttrs : List String := serviceInitAttrs ++ ["cache"]

/-- A Places instance: the stored base url, the shared TTLCache of all its
cached operations, and `extra`, any string attributes set on the instance
beyond those the constructors define (a real instance has none; it lets
the method bodies be evaluated on hypothetical objects too). -/
structure PlacesObj where
  base_url : String
  cache : TTLCacheSt
  extra : List (String × String)
  deriving Repr

/-- `Places.__init__(url, token, maxsize=10, ttl=600)`: calls
`Service.__init__(url, token)` and creates the single
`TTLCache(maxsize, ttl)` stored as `self.cache`. -/
def placesInit (url _tok : String) (maxsize ttl : Nat) : PlacesObj :=
  { base_url := url
    cache := { maxsize := maxsize, ttl := ttl, entries := [] }
    extra := [] }

/-- The `self.url` attribute read performed by every endpoint method.
Neither `Service.__init__` nor `Places.__init__` defines an attribute
named `url` (the constructor stores `base_url`), so on a real instance
this lookup raises `AttributeError`; only an object with an `url` entry
in `extra` resolves it. -/
def selfUrl (o : PlacesObj) : Except PyErr String :=
  match o.extra.find? (fun p => decide (p.1 = "url")) with
  | some p => .ok p.2
  | none => .error (.attributeError "url")

/-- An optional string parameter marshalled under Python truthiness
(`if x: params[name] = x`): absent when None or empty. -/
def strParam (name : String) (v : Option String) : List (String × PVal) :=
  match v with
  | some s => if s = "" then [] else [(name, PVal.s s)]
  | none => []

/-- A Python argument that may be a plain string or a list of strings, as
`Places.value` accepts for source/category/metric. -/
inductive StrOrList where
  | str (s : String)
  | list (l : List String)
  deriving DecidableEq, Repr

/-- Marshalling in `Places.value`: a truthy string is wrapped into a
one-element list, a truthy list passes through, falsy values are
omitted. -/
def seqParam (name : String) (v : Option StrOrList) : List (String × PVal) :=
  match v with
  | none => []
  | some (.str s) => if s = "" then [] else [(name, PVal.l [s])]
  | some (.list l) => if l = [] then [] else [(name, PVal.l l)]

/-- `Places.placetypes`: GET `'%s/placetypes' % self.url`. -/
def placetypesRun (o : PlacesObj) (tr : Transport) : Except PyErr String × Nat :=
  match selfUrl o with
  | .error e => (.error e, 0)
  | .ok url => (.ok (tr (url ++ "/placetypes") []), 1)

/-- `Places.random(geom='low', placetype=None)`: GET
`'%s/random' % self.url` with truthiness-guarded params. (The
`status_code != 200` check after the call can never fire, because
`WrappedSession.request` only returns status-200 responses.) -/
def randomRun (o : PlacesObj) (tr : Transport) (geom placetype : Option String) :
    Except PyErr String × Nat :=
  let params := strParam "geom" geom ++ strParam "placetype" placetype
  match selfUrl o with
  | .error e => (.error e, 0)
  | .ok url => (.ok (tr (url ++ "/random") params), 1)

/-- `Places.find(path, **kwargs)` body: GET
`'%s/find/%s' % (self.url, path)` with the kwargs as params. -/
def findRun (o : PlacesObj) (tr : Transport) (path : String)
    (kwargs : List (String × String)) : Except PyErr String × Nat :=
  match selfUrl o with
  | .error e => (.error e, 0)
  | .ok url =>
    (.ok (tr (url ++ "/find/" ++ path) (kwargs.map (fun p => (p.1, PVal.s p.2)))), 1)

/-- `Places.shape(slug, output='geojson', geom='low')` body: GET
`'%s/shape/%s.%s' % (self.url, slug, output)` with `{'geom': geom}`. -/
def shapeRun (o : PlacesObj) (tr : Transport) (slug output geom : String) :
    Except PyErr String × Nat :=
  match selfUrl o with
  | .error e => (.error e, 0)
  | .ok url =>
    (.ok (tr (url ++ "/shape/" ++ slug ++ "." ++ output) [("geom", PVal.s geom)]), 1)

/-- `Places.prefix(slug, output='geojson', placetype=None, geom='low')`
body: optional placetype, then unconditional geom, then GET
`'%s/prefix/%s.%s' % (self.url, slug, output)`. -/
def prefixSearchRun (o : PlacesObj) (tr : Transport) (slug output : String)
    (placetype : Option String) (geom : String) : Except PyErr String × Nat :=
  let params := strParam "placetype" placetype ++ [("geom", PVal.s geom)]
  match selfUrl o with
  | .error e => (.error e, 0)
  | .ok url => (.ok (tr (url ++ "/prefix/" ++ slug ++ "." ++ output) params), 1)

/-- `Places.sources`: GET `'%s/sources' % self.url`. -/
def sourcesRun (o : PlacesObj) (tr : Transport) : Except PyErr String × Nat :=
  match selfUrl o with
  | .error e => (.error e, 0)
  | .ok url => (.ok (tr (url ++ "/sources") []), 1)

/-- `Places.categories`: GET `'%s/categories' % self.url`. -/
def categoriesRun (o : PlacesObj) (tr : Transport) : Except PyErr String × Nat :=
  match selfUrl o with
  | .error e => (.error e, 0)
  | .ok url => (.ok (tr (url ++ "/categories") []), 1)

/-- `Places.metrics`: GET `'%s/metrics' % self.url`. -/
def metricsRun (o : PlacesObj) (tr : Transport) : Except PyErr String × Nat :=
  match selfUrl o with
  | .error e => (.error e, 0)
  | .ok url => (.ok (tr (url ++ "/metrics") []), 1)

/-- `Places.data(slug, source, category, metric, date, placetype='county')`
body: truthiness-guarded params, then GET `'%s/data/%s' % (self.url, slug)`. -/
def dataRun (o : PlacesObj) (tr : Transport) (slug : String)
    (source category metric date placetype : Option String) :
    Except PyErr String × Nat :=
  let params := strParam "source" source ++ strParam "category" category ++
    strParam "metric" metric ++ strParam "date" date ++
    strParam "placetype" placetype
  match selfUrl o with
  | .error e => (.error e, 0)
  | .ok url => (.ok (tr (url ++ "/data/" ++ slug) params), 1)

/-- `Places.statistics(slug, source, category, metric)` body. -/
def statisticsRun (o : PlacesObj) (tr : Transport) (slug : String)
    (source category metric : Option String) : Except PyErr String × Nat :=
  let params := strParam "source" source ++ strParam "category" category ++
    strParam "metric" metric
  match selfUrl o with
  | .error e => (.error e, 0)
  | .ok url => (.ok (tr (url ++ "/statistics/" ++ slug) params), 1)

/-- `Places.value(slug, source, category, metric, date)` body. -/
def valueRun (o : PlacesObj) (tr : Transport) (slug : String)
    (source category metric : Option StrOrList) (date : Option String) :
    Except PyErr String × Nat :=
  let params := seqParam "source" source ++ seqParam "category" category ++
    seqParam "metric" metric ++ strParam "date" date
  match selfUrl o with
  | .error e => (.error e, 0)
  | .ok url => (.ok (tr (url ++ "/value/" ++ slug) params), 1)

/-- One call to any of the eleven Places endpoint methods, with its
arguments. -/
inductive EndpointCall where
  | placetypes
  | find (path : String) (kwargs : List (String × String))
  | shape (slug output geom : String)
  | prefixSearch (slug output : String) (placetype : Option String) (geom : String)
  | data (slug : String) (source category metric date placetype : Option String)
  | statistics (slug : String) (source category metric : Option String)
  | value (slug : String) (source category metric : Option StrOrList)
      (date : Option String)
  | randomPlace (geom placetype : Option String)
  | sources
  | categories
  | metrics

/-- Dispatch an endpoint call to the corresponding method body. -/
def runEndpoint (c : EndpointCall) (o : PlacesObj) (tr : Transport) :
    Except PyErr String × Nat :=
  match c with
  | .placetypes => placetypesRun o tr
  | .find path kwargs => findRun o tr path kwargs
  | .shape slug output geom => shapeRun o tr slug output geom
  | .prefixSearch slug output placetype geom =>
      prefixSearchRun o tr slug output placetype geom
  | .data slug source category metric date placetype =>
      dataRun o tr slug source category metric date placetype
  | .statistics slug source category metric =>
      statisticsRun o tr slug source category metric
  | .value slug source category metric date =>
      valueRun o tr slug source category metric date
  | .randomPlace geom placetype => randomRun o tr geom placetype
  | .sources => sourcesRun o tr
  | .categories => categoriesRun o tr
  | .metrics => metricsRun o tr

/-- Claim C8: on a real Places instance every endpoint method call raises
AttributeError before any HTTP request is issued (0 requests), because
each body reads `self.url` while the constructors only define `base_url`
(and the other listed attributes). -/
theorem endpoint_calls_raise_attribute_error (c : EndpointCall) (u t : String)
    (m ttl : Nat) (tr : Transport) :
    runEndpoint c (placesInit u t m ttl) tr = (.error (.attributeError "url"), 0) ∧
    "url" ∉ placesInitAttrs ∧ "base_url" ∈ placesInitAttrs := by
  refine ⟨?_, by decide, by decide⟩
  cases c <;> rfl

/-- The key of a `find` call: `partial(hashkey, 'find')` applied to the
path and kwargs. -/
def findKey (path : String) (kwargs : List (String × String)) : List HElem :=
  hashkey [HElem.v "find", HElem.v path] kwargs

/-- The key of a positional `shape(slug, output, geom)` call:
`partial(hashkey, 'shape')`. -/
def shapeKey (slug output geom : String) : List HElem :=
  hashkey [HElem.v "shape", HElem.v slug, HElem.v output, HElem.v geom] []

/-- The key of a positional `prefix(slug, output, placetype, geom)` call:
`partial(hashkey, 'prefix')`; a None placetype hashes as None. -/
def prefixSearchKey (slug output : String) (placetype : Option String)
    (geom : String) : List HElem :=
  hashkey [HElem.v "prefix", HElem.v slug, HElem.v output,
    (match placetype with | some s => HElem.v s | none => HElem.noneV),
    HElem.v geom] []

/-- Outcome of one decorated (cached) Places operation. -/
structure PlacesCallOut where
  ret : Except PyErr String
  obj : PlacesObj
  methodCalls : Nat
  httpCalls : Nat
  deriving Repr

/-- `Places.find` as decorated:
`cachedmethod(operator.attrgetter('cache'), key=partial(hashkey, 'find'))`
around `findRun`, reading and writing the instance's shared `cache`. -/
def cachedFind (o : PlacesObj) (tr : Transport) (path : String)
    (kwargs : List (String × String)) (now : Nat) : PlacesCallOut :=
  let r := cachedCall o.cache (findKey path kwargs) now (findRun o tr path kwargs)
  { ret := r.ret, obj := { o with cache := r.cache },
    methodCalls := r.methodCalls, httpCalls := r.httpCalls }

/-- `Places.shape` as decorated:
`cachedmethod(operator.attrgetter('cache'), key=partial(hashkey, 'shape'))`
around `shapeRun`, on the same shared `cache` field. -/
def cachedShape (o : PlacesObj) (tr : Transport) (slug output geom : String)
    (now : Nat) : PlacesCallOut :=
  let r := cachedCall o.cache (shapeKey slug output geom) now
    (shapeRun o tr slug output geom)
  { ret := r.ret, obj := { o with cache := r.cache },
    methodCalls := r.methodCalls, httpCalls := r.httpCalls }

/-- `Places.prefix` as decorated:
`cachedmethod(operator.attrgetter('cache'), key=partial(hashkey, 'prefix'))`
around `prefixSearchRun`, on the same shared `cache` field. -/
def cachedPrefixSearch (o : PlacesObj) (tr : Transport) (slug output : String)
    (placetype : Option String) (geom : String) (now : Nat) : PlacesCallOut :=
  let r := cachedCall o.cache (prefixSearchKey slug output placetype geom) now
    (prefixSearchRun o tr slug output placetype geom)
  { ret := r.ret, obj := { o with cache := r.cache },
    methodCalls := r.methodCalls, httpCalls := r.httpCalls }

/-- Claim C4, evaluated at the failing input: two `find` calls with
identical arguments inside the TTL window invoke the transport zero
times, not once. Each call raises AttributeError('url') inside the
method body before any request, the error propagates through the
cachedmethod wrapper, and nothing is ever cached. -/
theorem find_twice_transport_never_invoked (tr : Transport) :
    (cachedFind (placesInit "https://waldo" "tok" 10 600) tr "morocco" [] 0).ret =
      .error (.attributeError "url") ∧
    (cachedFind (placesInit "https://waldo" "tok" 10 600) tr "morocco" [] 0).httpCalls = 0 ∧
    (cachedFind (cachedFind (placesInit "https://waldo" "tok" 10 600) tr
        "morocco" [] 0).obj tr "morocco" [] 1).ret = .error (.attributeError "url") ∧
    (cachedFind (cachedFind (placesInit "https://waldo" "tok" 10 600) tr
        "morocco" [] 0).obj tr "morocco" [] 1).httpCalls = 0 ∧
    (cachedFind (cachedFind (placesInit "https://waldo" "tok" 10 600) tr
        "morocco" [] 0).obj tr "morocco" [] 1).obj.cache.entries = [] :=
  ⟨rfl, rfl, rfl, rfl, rfl⟩

/-- Claim C10: all cached operations (find, shape, prefix) of one Places
instance operate on the single bounded TTLCache created in
`Places.__init__`, whose `maxsize` counts the entries of every operation
together: inserting through the find path into a full cache whose
least-recently-used live entry belongs to shape evicts that shape entry
(it is gone, the find entry is stored, the size stays at `maxsize`), and
a subsequent shape call on the shared cache misses and must run its
method again. -/
theorem shared_cache_cross_op_eviction
    (o : PlacesObj) (v : String) (now : Nat)
    (slug output geom path : String)
    (e0 : CacheEntry) (rest : List CacheEntry)
    (hent : o.cache.entries = e0 :: rest)
    (hkey : e0.key = shapeKey slug output geom)
    (hfull : o.cache.entries.length = o.cache.maxsize)
    (hlive : ∀ e ∈ o.cache.entries, ¬ e.expire < now)
    (hfresh : ∀ e ∈ o.cache.entries, e.key ≠ findKey path [])
    (hnodup : (o.cache.entries.map CacheEntry.key).Nodup) :
    (∀ u2 t2 m2 tl2, (placesInit u2 t2 m2 tl2).cache =
      { maxsize := m2, ttl := tl2, entries := [] }) ∧
    (∀ e ∈ (cacheSet o.cache (findKey path []) v now).entries,
      e.key ≠ shapeKey slug output geom) ∧
    (∃ e ∈ (cacheSet o.cache (findKey path []) v now).entries,
      e.key = findKey path [] ∧ e.val = v) ∧
    (cacheSet o.cache (findKey path []) v now).entries.length = o.cache.maxsize ∧
    (∀ tr : Transport,
      (cachedShape { o with cache := cacheSet o.cache (findKey path []) v now }
        tr slug output geom now).methodCalls = 1) := by
  have hpurge : expirePurge o.cache now = o.cache := by
    have hf : o.cache.entries.filter (fun e => decide (now ≤ e.expire)) =
        o.cache.entries := by
      apply List.filter_eq_self.mpr
      intro a ha
      simp only [decide_eq_true_eq]
      exact Nat.le_of_not_lt (hlive a ha)
    simp [expirePurge, hf]
  have hfil : o.cache.entries.filter (fun e => decide (e.key ≠ findKey path [])) =
      o.cache.entries := by
    apply List.filter_eq_self.mpr
    intro a ha
    simp only [decide_eq_true_eq]
    exact hfresh a ha
  have hset : (cacheSet o.cache (findKey path []) v now).entries =
      rest ++ [{ key := findKey path [], val := v, expire := now + o.cache.ttl }] := by
    unfold cacheSet
    rw [hpurge]
    dsimp only
    rw [hfil]
    have hcond : o.cache.maxsize ≤ o.cache.entries.length := le_of_eq hfull.symm
    rw [if_pos hcond]
    have hidx : o.cache.entries.length + 1 - o.cache.maxsize = 1 := by omega
    rw [hidx, hent]
    rfl
  have he0mem : e0 ∈ o.cache.entries := by
    rw [hent]
    exact List.mem_cons_self _ _
  have hkne : findKey path [] ≠ shapeKey slug output geom := by
    have h := hfresh e0 he0mem
    rw [hkey] at h
    exact fun hcontra => h hcontra.symm
  have h0 : e0.key ∉ rest.map CacheEntry.key := by
    rw [hent] at hnodup
    simp only [List.map_cons] at hnodup
    exact (List.nodup_cons.mp hnodup).1
  have hmiss : ∀ e ∈ (cacheSet o.cache (findKey path []) v now).entries,
      e.key ≠ shapeKey slug output geom := by
    intro e he
    rw [hset] at he
    rcases List.mem_append.mp he with h | h
    · intro hcontra
      apply h0
      have hek : e.key = e0.key := by rw [hcontra, hkey]
      rw [← hek]
      exact List.mem_map_of_mem CacheEntry.key h
    · have h2 := List.mem_singleton.mp h
      rw [h2]
      exact hkne
  refine ⟨fun u2 t2 m2 tl2 => rfl, hmiss, ?_, ?_, ?_⟩
  · refine ⟨{ key := findKey path [], val := v, expire := now + o.cache.ttl }, ?_, rfl, rfl⟩
    rw [hset]
    exact List.mem_append_right _ (List.mem_singleton.mpr rfl)
  · rw [hset]
    have h4 := hfull
    rw [hent] at h4
    simp only [List.length_cons] at h4
    simp only [List.length_append, List.length_cons, List.length_nil]
    omega
  · intro tr
    have hfind : (cacheSet o.cache (findKey path []) v now).entries.find?
        (fun e => decide (e.key = shapeKey slug output geom)) = none := by
      apply List.find?_eq_none.mpr
      intro e he
      simpa using hmiss e he
    unfold cachedShape cachedCall cacheLookup
    rw [hfind]
    generalize shapeRun { o with cache := cacheSet o.cache (findKey path []) v now }
      tr slug output geom = sr
    obtain ⟨res, n⟩ := sr
    cases res <;> rfl

/-- A concrete shape-keyed cache entry used by the eviction witness. -/
def wShapeEntry : CacheEntry :=
  { key := shapeKey "kansas" "geojson" "low", val := "sv", expire := 600 }

/-- A concrete find-keyed cache entry used by the eviction witness. -/
def wFindEntry : CacheEntry :=
  { key := findKey "iowa" [], val := "fv", expire := 600 }

/-- A concrete full shared cache (maxsize 2) holding one shape entry (LRU)
and one find entry. -/
def wCache : TTLCacheSt := { maxsize := 2, ttl := 600, entries := [wShapeEntry, wFindEntry] }

/-- A concrete Places object carrying `wCache`. -/
def wPlaces : PlacesObj := { base_url := "https://w", cache := wCache, extra := [] }

theorem shared_cache_cross_op_eviction_witness :
    (∀ e ∈ wCache.entries, ¬ e.expire < 0) ∧
    (∀ e ∈ wCache.entries, e.key ≠ findKey "morocco" []) ∧
    (∀ e ∈ (cacheSet wCache (findKey "morocco" []) "mv" 0).entries,
      e.key ≠ shapeKey "kansas" "geojson" "low") ∧
    (∃ e ∈ (cacheSet wCache (findKey "morocco" []) "mv" 0).entries,
      e.key = findKey "morocco" [] ∧ e.val = "mv") ∧
    (cacheSet wCache (findKey "morocco" []) "mv" 0).entries.length = wCache.maxsize := by
  obtain ⟨_, h2, h3, h4, _⟩ := shared_cache_cross_op_eviction wPlaces "mv" 0
    "kansas" "geojson" "low" "morocco" wShapeEntry [wFindEntry]
    rfl rfl rfl (by decide) (by decide) (by decide)
  exact ⟨by decide, by decide, h2, h3, h4⟩
